import Mathlib

/-!
Verification of the VM-handle/state-management core of Selene
(src/include/selene/State.h) against its specification.

The embedded Lua VM is modelled shallowly: the VM value stack is a list
(head = top slot), the global table is an ordered key/value list driving the
lua_next iteration protocol, and the external VM primitives that State.h
calls (luaL_loadfile, lua_pcall, luaL_dostring, luaL_requiref, lua_call) are
an oracle structure of arbitrary total functions returning a status code and
a transformed VM — the code under verification must be correct whatever they
do to the stack.  The Scoped Stack Guard (ResetStackOnScopeExit of util.h)
and the Error Reporter (ExceptionHandler of exception.h) are not under src/
and are modelled from the spec where marked.  Undefined behaviour at the FFI
boundary (passing a nulled handle to a VM primitive, dereferencing a null
handler pointer) is made explicit as a Fault value.
-/

namespace Selene

/-- Lua values as seen through the C API tags State.h inspects: nil, string,
number, table, function, and a catch-all for every other type tag.  Numbers
are modelled as integers; their textual formatting is abstracted by an
explicit formatter argument wherever the code formats one. -/
inductive LuaVal : Type where
  | nil : LuaVal
  | str : String → LuaVal
  | num : Int → LuaVal
  | table : Nat → LuaVal
  | fn : Nat → LuaVal
  | other : Nat → LuaVal
  deriving DecidableEq, Repr

/-- The VM state State.h can observe: the value stack (head of the list is
the top slot, C API index -1) and the global table as the ordered key/value
sequence that lua_next walks. -/
structure VM : Type where
  stack : List LuaVal
  globals : List (LuaVal × LuaVal)
  deriving DecidableEq, Repr

/-- lua_settop to absolute depth n: slots above n are popped; if the stack is
shorter than n, nil slots are pushed up to depth n. -/
def luaSettop (n : Nat) (st : List LuaVal) : List LuaVal :=
  if n ≤ st.length then st.drop (st.length - n)
  else List.replicate (n - st.length) LuaVal.nil ++ st

/-- Modelled from the spec: the Scoped Stack Guard (ResetStackOnScopeExit of
util.h, not under src/).  Acquisition records the current stack depth; this
is the release, run on every exit path, which sets the VM stack back to the
recorded depth. -/
def restoreStack (n : Nat) (vm : VM) : VM :=
  { vm with stack := luaSettop n vm.stack }

/-- lua_tostring(L, -1): the textual form of the stack top, or none (NULL)
when the top slot is neither a string nor a number.  fmt models the VM's
numeric-to-text conversion. -/
def luaToStringTop (fmt : Int → String) (vm : VM) : Option String :=
  match vm.stack with
  | LuaVal.str s :: _ => some s
  | LuaVal.num n :: _ => some (fmt n)
  | _ => none

/-- Modelled from the spec: ExceptionHandler::Handle_top_of_stack of
exception.h (not under src/) reads the error message from the top of the
VM's own stack — the VM convention of pushing an error string before
returning a failure code — and invokes the callback with the code and that
message. -/
def handleTopOfStack (fmt : Int → String) (status : Int) (vm : VM) :
    Int × String :=
  (status, (luaToStringTop fmt vm).getD "")

/-- sel::State: the VM handle pointer _l (none = nullptr), the ownership
flag _l_owner, the Registry unique_ptr and the ExceptionHandler unique_ptr
(none = null pointer; the held object is an opaque id).  The Error Reporter
callback itself is opaque: an operation's handler invocations are returned
as a list of (code, message) events. -/
structure SelState : Type where
  l : Option Nat
  l_owner : Bool
  registry : Option Nat
  handler : Option Nat
  deriving DecidableEq, Repr

/-- Undefined behaviour escaping the C++ code at the FFI boundary: passing
the nulled VM handle of a moved-from State to a VM primitive, or
dereferencing a null ExceptionHandler pointer. -/
inductive Fault : Type where
  | nullHandle : Fault
  | nullHandler : Fault
  deriving DecidableEq, Repr

/-- Behaviour of the external VM primitives State.h calls on a live handle.
Each is an arbitrary total function: a status code where the C API returns
one, and the VM left behind. -/
structure Oracle : Type where
  loadfile : String → VM → Int × VM
  pcall : VM → Int × VM
  dostring : String → VM → Int × VM
  requiref : String → Nat → VM → VM
  call : VM → VM

/-- The success status code of the Lua 5.2+ C API. -/
def LUA_OK : Int := 0

/-- The compile-time status code for a source text that fails to parse. -/
def LUA_ERRSYNTAX : Int := 3

/-- The status code for a script file that cannot be opened or read. -/
def LUA_ERRFILE : Int := 6

/-- The body of State::Load (State.h lines 62-89) between the guard's
acquisition and the scope exit: luaL_loadfile, branch on the compile status
with path-tagged fallback messages when the stack top yields no message,
then lua_pcall of the compiled chunk; lua52 selects the
LUA_VERSION_NUM >= 502 definition of the success code.  The result is the
boolean return, the VM before the guard's release, and the handler
invocations in order. -/
def State.loadBody (orc : Oracle) (lua52 : Bool) (fmt : Int → String)
    (s : SelState) (vm : VM) (file : String) :
    Except Fault (Bool × VM × List (Int × String)) :=
  match s.l with
  | none => Except.error Fault.nullHandle
  | some _ =>
    let r1 := orc.loadfile file vm
    let status := r1.1
    let vm1 := r1.2
    let lua_ok : Int := if lua52 then LUA_OK else 0
    if status ≠ lua_ok then
      if status = LUA_ERRSYNTAX then
        match s.handler with
        | none => Except.error Fault.nullHandler
        | some _ =>
          let msg := (luaToStringTop fmt vm1).getD (file ++ ": syntax error")
          Except.ok (false, vm1, [(status, msg)])
      else if status = LUA_ERRFILE then
        match s.handler with
        | none => Except.error Fault.nullHandler
        | some _ =>
          let msg := (luaToStringTop fmt vm1).getD (file ++ ": file error")
          Except.ok (false, vm1, [(status, msg)])
      else
        Except.ok (false, vm1, [])
    else
      let r2 := orc.pcall vm1
      let status2 := r2.1
      let vm2 := r2.2
      if status2 = lua_ok then
        Except.ok (true, vm2, [])
      else
        match s.handler with
        | none => Except.error Fault.nullHandler
        | some _ =>
          let msg := (luaToStringTop fmt vm2).getD (file ++ ": dofile failed")
          Except.ok (false, vm2, [(status2, msg)])

/-- State::Load: the guard records the depth of the incoming stack and its
release runs on every normally-returning path of the body (the RAII scope
exit), setting the stack back to that depth; a Fault bypasses the scope
exit. -/
def State.load (orc : Oracle) (lua52 : Bool) (fmt : Int → String)
    (s : SelState) (vm : VM) (file : String) :
    Except Fault (Bool × VM × List (Int × String)) :=
  (State.loadBody orc lua52 fmt s vm file).map
    (fun r => (r.1, restoreStack vm.stack.length r.2.1, r.2.2))

/-- The body of State::operator()(const char*) (State.h lines 123-131)
between the guard's acquisition and the scope exit: luaL_dostring, and on a
non-zero status one Handle_top_of_stack invocation and a false return. -/
def State.executeBody (orc : Oracle) (fmt : Int → String)
    (s : SelState) (vm : VM) (code : String) :
    Except Fault (Bool × VM × List (Int × String)) :=
  match s.l with
  | none => Except.error Fault.nullHandle
  | some _ =>
    let r1 := orc.dostring code vm
    let status := r1.1
    let vm1 := r1.2
    if status ≠ 0 then
      match s.handler with
      | none => Except.error Fault.nullHandler
      | some _ =>
        Except.ok (false, vm1, [handleTopOfStack fmt status vm1])
    else
      Except.ok (true, vm1, [])

/-- State::operator()(const char*): the guard records the depth of the
incoming stack and its release runs on every normally-returning path of the
body. -/
def State.execute (orc : Oracle) (fmt : Int → String)
    (s : SelState) (vm : VM) (code : String) :
    Except Fault (Bool × VM × List (Int × String)) :=
  (State.executeBody orc fmt s vm code).map
    (fun r => (r.1, restoreStack vm.stack.length r.2.1, r.2.2))

/-- The body of State::OpenLib (State.h lines 91-100) between the guard's
acquisition and the scope exit: either luaL_requiref
(the LUA_VERSION_NUM >= 502 branch) or the older sequence of pushing the C
function and the module name and lua_call with one argument and no
results. -/
def State.openLibBody (orc : Oracle) (lua52 : Bool)
    (s : SelState) (vm : VM) (modname : String) (openf : Nat) :
    Except Fault VM :=
  match s.l with
  | none => Except.error Fault.nullHandle
  | some _ =>
    if lua52 then Except.ok (orc.requiref modname openf vm)
    else
      let vm1 : VM := { vm with stack := LuaVal.fn openf :: vm.stack }
      let vm2 : VM := { vm1 with stack := LuaVal.str modname :: vm1.stack }
      Except.ok (orc.call vm2)

/-- State::OpenLib: the guard records the depth of the incoming stack and
its release runs on every normally-returning path of the body. -/
def State.openLib (orc : Oracle) (lua52 : Bool)
    (s : SelState) (vm : VM) (modname : String) (openf : Nat) :
    Except Fault VM :=
  (State.openLibBody orc lua52 s vm modname openf).map
    (restoreStack vm.stack.length)

/-- The loop of State::GlobalNames (State.h lines 151-164): at each step the
stack holds the current key above the global table; lua_next pops the key
and pushes the next key/value pair, or pops it and returns 0 when the table
is exhausted (after which the code pops the global table itself).  String
keys are collected as they are, number keys through the sprintf_s formatter,
every other key tag is skipped, and the value slot is popped before the next
step. -/
def globalNamesLoop (fmt : Int → String) :
    List (LuaVal × LuaVal) → VM → List String → VM × List String
  | [], vm, acc =>
      let vmA : VM := { vm with stack := vm.stack.tail }
      let vmB : VM := { vmA with stack := vmA.stack.tail }
      (vmB, acc)
  | (k, v) :: rest, vm, acc =>
      let vm1 : VM := { vm with stack := v :: k :: vm.stack.tail }
      let acc1 :=
        match k with
        | LuaVal.str s => acc ++ [s]
        | LuaVal.num n => acc ++ [fmt n]
        | _ => acc
      let vm2 : VM := { vm1 with stack := vm1.stack.tail }
      globalNamesLoop fmt rest vm2 acc1

/-- State::GlobalNames (State.h lines 144-168): an empty list when the
handle is null; otherwise push the global table, push nil, and run the
lua_next loop. -/
def State.globalNames (fmt : Int → String) (s : SelState) (vm : VM) :
    VM × List String :=
  match s.l with
  | none => (vm, [])
  | some _ =>
    let vm1 : VM := { vm with stack := LuaVal.table 0 :: vm.stack }
    let vm2 : VM := { vm1 with stack := LuaVal.nil :: vm1.stack }
    globalNamesLoop fmt vm.globals vm2 []

/-- The sequence of names GlobalNames is specified to collect from the
global table, written from the spec's words: string keys contribute their
textual form, number keys their formatted decimal form, every other key tag
is skipped. -/
def specGlobalNames (fmt : Int → String) :
    List (LuaVal × LuaVal) → List String
  | [] => []
  | (k, _) :: rest =>
    match k with
    | LuaVal.str s => s :: specGlobalNames fmt rest
    | LuaVal.num n => fmt n :: specGlobalNames fmt rest
    | _ => specGlobalNames fmt rest

/-- Observable VM-handle lifecycle events: lua_gc(LUA_GCCOLLECT, 0) and
lua_close, tagged with the handle they act on. -/
inductive LEvent : Type where
  | gcCollect : Nat → LEvent
  | close : Nat → LEvent
  deriving DecidableEq, Repr

/-- State::~State (State.h lines 50-56): if the handle is non-null and
owned, ForceGC (a full collection cycle) and then lua_close; the handle
field is nulled in every case.  Returns the object after destruction and
the lifecycle events emitted. -/
def State.destruct (s : SelState) : SelState × List LEvent :=
  match s.l with
  | some h =>
    if s.l_owner then
      ({ s with l := none }, [LEvent.gcCollect h, LEvent.close h])
    else
      ({ s with l := none }, [])
  | none => ({ s with l := none }, [])

/-- State::State(State&&) (State.h lines 36-41): the new State takes the
handle, the ownership flag and the registry, and the source handle is
nulled.  The _exception_handler member is absent from the initializer list,
so the new State's handler unique_ptr is default-constructed null while the
source keeps its own.  Returns (moved-to, moved-from after the move). -/
def State.moveCtor (other : SelState) : SelState × SelState :=
  (⟨other.l, other.l_owner, other.registry, none⟩,
   ⟨none, other.l_owner, none, other.handler⟩)

/-- State::operator=(State&&) (State.h lines 42-49): when source and
destination are the same object (the address check, here the flag `same`)
nothing changes; otherwise the destination takes the source's handle,
ownership flag and registry — its previous handle pointer is overwritten
without lua_close and its handler pointer is untouched — and the source
handle is nulled.  Returns (destination, source after the move). -/
def State.moveAssign (same : Bool) (dst src : SelState) :
    SelState × SelState :=
  if same then (dst, src)
  else
    (⟨src.l, src.l_owner, src.registry, dst.handler⟩,
     ⟨none, src.l_owner, none, src.handler⟩)

/-- One public call on the handle of a State, reduced to the VM it leaves
behind. -/
inductive SCall : Type where
  | loadFile : String → SCall
  | exec : String → SCall
  | libOpen : String → Nat → SCall
  | names : SCall
  deriving DecidableEq, Repr

/-- Dispatch one public call (Load, operator(), OpenLib, GlobalNames) and
keep the VM it leaves behind. -/
def State.stepCall (orc : Oracle) (lua52 : Bool) (fmt : Int → String)
    (s : SelState) (c : SCall) (vm : VM) : Except Fault VM :=
  match c with
  | SCall.loadFile f => (State.load orc lua52 fmt s vm f).map (fun r => r.2.1)
  | SCall.exec code => (State.execute orc fmt s vm code).map (fun r => r.2.1)
  | SCall.libOpen m f => State.openLib orc lua52 s vm m f
  | SCall.names => Except.ok (State.globalNames fmt s vm).1

/-- A sequence of public calls threaded through one VM handle. -/
def State.runCalls (orc : Oracle) (lua52 : Bool) (fmt : Int → String)
    (s : SelState) : List SCall → VM → Except Fault VM
  | [], vm => Except.ok vm
  | c :: cs, vm =>
    match State.stepCall orc lua52 fmt s c vm with
    | Except.error e => Except.error e
    | Except.ok vm1 => State.runCalls orc lua52 fmt s cs vm1

/-- Concrete numeric formatter for the evaluation examples. -/
def demoFmt : Int → String := fun n => toString n

/-- A concrete VM with one value on the stack and a small global table. -/
def demoVM : VM :=
  { stack := [LuaVal.num 7],
    globals := [(LuaVal.str "print", LuaVal.fn 0), (LuaVal.num 3, LuaVal.nil),
                (LuaVal.table 1, LuaVal.nil)] }

/-- A concrete live State owning handle 1, with a handler installed. -/
def demoState : SelState :=
  { l := some 1, l_owner := true, registry := some 0, handler := some 0 }

/-- A concrete oracle: compilation fails with the syntax-error code leaving
a non-string slot on top, lua_pcall succeeds, luaL_dostring fails with a
runtime code pushing an error string. -/
def demoOracle : Oracle :=
  { loadfile := fun _ vm => ( LUA_ERRSYNTAX, { vm with stack := LuaVal.table 9 :: vm.stack }),
    pcall := fun vm => (0, vm),
    dostring := fun _ vm => (2, { vm with stack := LuaVal.str "err" :: vm.stack }),
    requiref := fun _ _ vm => vm,
    call := fun vm => { vm with stack := vm.stack.drop 2 } }

/-- A concrete oracle whose compilation fails with status 4 (a memory-style
code that is neither the syntax-error nor the file-error code). -/
def demoOracle2 : Oracle :=
  { demoOracle with loadfile := fun _ vm => (4, vm) }

theorem luaSettop_length (n : Nat) (st : List LuaVal) :
    (luaSettop n st).length = n := by
  unfold luaSettop
  split
  · rw [List.length_drop]
    omega
  · rw [List.length_append, List.length_replicate]
    omega

theorem restoreStack_stack (n : Nat) (vm : VM) :
    (restoreStack n vm).stack.length = n :=
  luaSettop_length n vm.stack

theorem load_ok_stack (orc : Oracle) (lua52 : Bool) (fmt : Int → String)
    (s : SelState) (vm : VM) (file : String)
    (r : Bool × VM × List (Int × String))
    (h : State.load orc lua52 fmt s vm file = Except.ok r) :
    r.2.1.stack.length = vm.stack.length := by
  unfold State.load at h
  cases hb : State.loadBody orc lua52 fmt s vm file with
  | error e => rw [hb] at h; simp [Except.map] at h
  | ok b =>
    rw [hb] at h
    simp only [Except.map] at h
    injection h with h'
    subst h'
    exact restoreStack_stack _ _

theorem execute_ok_stack (orc : Oracle) (fmt : Int → String)
    (s : SelState) (vm : VM) (code : String)
    (r : Bool × VM × List (Int × String))
    (h : State.execute orc fmt s vm code = Except.ok r) :
    r.2.1.stack.length = vm.stack.length := by
  unfold State.execute at h
  cases hb : State.executeBody orc fmt s vm code with
  | error e => rw [hb] at h; simp [Except.map] at h
  | ok b =>
    rw [hb] at h
    simp only [Except.map] at h
    injection h with h'
    subst h'
    exact restoreStack_stack _ _

theorem openLib_ok_stack (orc : Oracle) (lua52 : Bool)
    (s : SelState) (vm : VM) (modname : String) (openf : Nat) (vmr : VM)
    (h : State.openLib orc lua52 s vm modname openf = Except.ok vmr) :
    vmr.stack.length = vm.stack.length := by
  unfold State.openLib at h
  cases hb : State.openLibBody orc lua52 s vm modname openf with
  | error e => rw [hb] at h; simp [Except.map] at h
  | ok b =>
    rw [hb] at h
    simp only [Except.map] at h
    injection h with h'
    subst h'
    exact restoreStack_stack _ _

theorem globalNamesLoop_run (fmt : Int → String)
    (entries : List (LuaVal × LuaVal)) :
    ∀ (g : List (LuaVal × LuaVal)) (k t : LuaVal) (S : List LuaVal)
      (acc : List String),
      globalNamesLoop fmt entries { stack := k :: t :: S, globals := g } acc
        = ({ stack := S, globals := g }, acc ++ specGlobalNames fmt entries) := by
  induction entries with
  | nil =>
    intro g k t S acc
    simp [globalNamesLoop, specGlobalNames]
  | cons p rest ih =>
    intro g k t S acc
    obtain ⟨pk, pv⟩ := p
    cases pk <;>
      simp [globalNamesLoop, specGlobalNames, ih]

theorem globalNames_run (fmt : Int → String) (s : SelState) (vm : VM) :
    State.globalNames fmt s vm
      = (vm, if s.l.isSome then specGlobalNames fmt vm.globals else []) := by
  unfold State.globalNames
  cases hs : s.l with
  | none => simp
  | some h =>
    simp only [Option.isSome_some, if_true]
    exact globalNamesLoop_run fmt vm.globals vm.globals LuaVal.nil
      (LuaVal.table 0) vm.stack []

theorem stepCall_ok_stack (orc : Oracle) (lua52 : Bool) (fmt : Int → String)
    (s : SelState) (c : SCall) (vm vmr : VM)
    (h : State.stepCall orc lua52 fmt s c vm = Except.ok vmr) :
    vmr.stack.length = vm.stack.length := by
  cases c with
  | loadFile f =>
    simp only [State.stepCall] at h
    cases hl : State.load orc lua52 fmt s vm f with
    | error e => rw [hl] at h; simp [Except.map] at h
    | ok r =>
      rw [hl] at h
      simp only [Except.map] at h
      injection h with h'
      subst h'
      exact load_ok_stack orc lua52 fmt s vm f r hl
  | exec code =>
    simp only [State.stepCall] at h
    cases hl : State.execute orc fmt s vm code with
    | error e => rw [hl] at h; simp [Except.map] at h
    | ok r =>
      rw [hl] at h
      simp only [Except.map] at h
      injection h with h'
      subst h'
      exact execute_ok_stack orc fmt s vm code r hl
  | libOpen m f =>
    simp only [State.stepCall] at h
    exact openLib_ok_stack orc lua52 s vm m f vmr h
  | names =>
    simp only [State.stepCall] at h
    injection h with h'
    subst h'
    rw [globalNames_run]

/-- C1: for every sequence of Load, Execute, OpenLib and GlobalNames calls on
one VM handle, the stack depth immediately before each call equals the stack
depth immediately after that call, whether the call succeeds or fails; in
particular a whole call sequence leaves the depth unchanged. -/
theorem c1_stack_balanced (orc : Oracle) (lua52 : Bool) (fmt : Int → String)
    (s : SelState) :
    (∀ (c : SCall) (vm vmr : VM),
        State.stepCall orc lua52 fmt s c vm = Except.ok vmr →
        vmr.stack.length = vm.stack.length) ∧
    (∀ (cs : List SCall) (vm vmr : VM),
        State.runCalls orc lua52 fmt s cs vm = Except.ok vmr →
        vmr.stack.length = vm.stack.length) := by
  constructor
  · intro c vm vmr h
    exact stepCall_ok_stack orc lua52 fmt s c vm vmr h
  · intro cs
    induction cs with
    | nil =>
      intro vm vmr h
      simp only [State.runCalls] at h
      injection h with h'
      subst h'
      rfl
    | cons c cs ih =>
      intro vm vmr h
      simp only [State.runCalls] at h
      cases hc : State.stepCall orc lua52 fmt s c vm with
      | error e => rw [hc] at h; simp at h
      | ok vm1 =>
        rw [hc] at h
        simp only [] at h
        have h1 := stepCall_ok_stack orc lua52 fmt s c vm vm1 hc
        have h2 := ih vm1 vmr h
        omega

/-- Witness for c1_stack_balanced: a concrete failing Execute call leaves
the concrete stack depth unchanged. -/
theorem c1_stack_balanced_witness :
    State.stepCall demoOracle true demoFmt demoState (SCall.exec "x") demoVM
        = Except.ok demoVM ∧
    demoVM.stack.length = demoVM.stack.length :=
  ⟨by rfl, (c1_stack_balanced demoOracle true demoFmt demoState).1
      (SCall.exec "x") demoVM demoVM (by rfl)⟩

/-- C2: a compile failure in Load whose status is non-success but neither
the syntax-error code nor the file-error code makes Load return false
without any error-reporter invocation. -/
theorem c2_load_silent_failure (orc : Oracle) (lua52 : Bool)
    (fmt : Int → String) (s : SelState) (vm : VM) (file : String)
    (h0 : Nat) (st : Int) (vm1 : VM)
    (hl : s.l = some h0)
    (hE : orc.loadfile file vm = (st, vm1))
    (hne : st ≠ 0) (hns : st ≠ LUA_ERRSYNTAX) (hnf : st ≠ LUA_ERRFILE) :
    State.load orc lua52 fmt s vm file
      = Except.ok (false, restoreStack vm.stack.length vm1, []) := by
  have hb : State.loadBody orc lua52 fmt s vm file
      = Except.ok (false, vm1, []) := by
    cases lua52 <;>
      simp [State.loadBody, hl, hE, hne, hns, hnf, LUA_OK]
  simp [State.load, hb, Except.map]

/-- Witness for c2_load_silent_failure: a concrete status-4 compile failure
returns false with no reporter invocation. -/
theorem c2_load_silent_failure_witness :
    demoState.l = some 1 ∧
    demoOracle2.loadfile "f" demoVM = (4, demoVM) ∧
    (4 : Int) ≠ 0 ∧ (4 : Int) ≠ LUA_ERRSYNTAX ∧ (4 : Int) ≠ LUA_ERRFILE ∧
    State.load demoOracle2 true demoFmt demoState demoVM "f"
      = Except.ok (false, restoreStack demoVM.stack.length demoVM, []) :=
  ⟨rfl, rfl, by decide, by decide, by decide,
    c2_load_silent_failure demoOracle2 true demoFmt demoState demoVM "f" 1 4
      demoVM rfl rfl (by decide) (by decide) (by decide)⟩

/-- C3: Execute compiles-and-runs the text in one step under the stack
guard; a non-success status invokes the error reporter exactly once with the
message read from the VM stack top and returns false, while a success status
returns true with no reporter invocation. -/
theorem c3_execute_reports (orc : Oracle) (fmt : Int → String)
    (s : SelState) (vm : VM) (code : String) (h0 hd : Nat) (st : Int)
    (vm1 : VM)
    (hl : s.l = some h0) (hh : s.handler = some hd)
    (hE : orc.dostring code vm = (st, vm1)) :
    (st ≠ 0 →
      State.execute orc fmt s vm code
        = Except.ok (false, restoreStack vm.stack.length vm1,
            [(st, (luaToStringTop fmt vm1).getD "")])) ∧
    (st = 0 →
      State.execute orc fmt s vm code
        = Except.ok (true, restoreStack vm.stack.length vm1, [])) := by
  constructor
  · intro hne
    have hb : State.executeBody orc fmt s vm code
        = Except.ok (false, vm1, [(st, (luaToStringTop fmt vm1).getD "")]) := by
      simp [State.executeBody, hl, hh, hE, hne, handleTopOfStack]
    simp [State.execute, hb, Except.map]
  · intro he
    subst he
    have hb : State.executeBody orc fmt s vm code
        = Except.ok (true, vm1, []) := by
      simp [State.executeBody, hl, hE]
    simp [State.execute, hb, Except.map]

/-- Witness for c3_execute_reports: a concrete runtime failure reports once
with the stack-top message and returns false. -/
theorem c3_execute_reports_witness :
    demoState.l = some 1 ∧ demoState.handler = some 0 ∧
    demoOracle.dostring "x" demoVM
        = (2, { demoVM with stack := LuaVal.str "err" :: demoVM.stack }) ∧
    (2 : Int) ≠ 0 ∧
    State.execute demoOracle demoFmt demoState demoVM "x"
      = Except.ok (false,
          restoreStack demoVM.stack.length
            { demoVM with stack := LuaVal.str "err" :: demoVM.stack },
          [(2, "err")]) :=
  ⟨rfl, rfl, rfl, by decide,
    (c3_execute_reports demoOracle demoFmt demoState demoVM "x" 1 0 2
        { demoVM with stack := LuaVal.str "err" :: demoVM.stack }
        rfl rfl rfl).1 (by decide)⟩

/-- C4: Load reports the message found on the VM stack top when one is
present, and otherwise the path-tagged fallback texts — "syntax error" for a
syntax-error compile status, "file error" for a file-error compile status,
"dofile failed" for an invocation failure. -/
theorem c4_load_fallback (orc : Oracle) (lua52 : Bool) (fmt : Int → String)
    (s : SelState) (vm : VM) (file : String) (h0 hd : Nat)
    (hl : s.l = some h0) (hh : s.handler = some hd) :
    (∀ vm1, orc.loadfile file vm = ( LUA_ERRSYNTAX, vm1) →
        State.load orc lua52 fmt s vm file
          = Except.ok (false, restoreStack vm.stack.length vm1,
              [( LUA_ERRSYNTAX,
                (luaToStringTop fmt vm1).getD (file ++ ": syntax error"))])) ∧
    (∀ vm1, orc.loadfile file vm = (LUA_ERRFILE, vm1) →
        State.load orc lua52 fmt s vm file
          = Except.ok (false, restoreStack vm.stack.length vm1,
              [(LUA_ERRFILE,
                (luaToStringTop fmt vm1).getD (file ++ ": file error"))])) ∧
    (∀ vm1 st2 vm2, orc.loadfile file vm = (0, vm1) →
        orc.pcall vm1 = (st2, vm2) → st2 ≠ 0 →
        State.load orc lua52 fmt s vm file
          = Except.ok (false, restoreStack vm.stack.length vm2,
              [(st2,
                (luaToStringTop fmt vm2).getD (file ++ ": dofile failed"))])) := by
  refine ⟨?_, ?_, ?_⟩
  · intro vm1 hE
    have hb : State.loadBody orc lua52 fmt s vm file
        = Except.ok (false, vm1,
            [( LUA_ERRSYNTAX,
              (luaToStringTop fmt vm1).getD (file ++ ": syntax error"))]) := by
      cases lua52 <;>
        simp [State.loadBody, hl, hh, hE, LUA_OK, LUA_ERRSYNTAX]
    simp [State.load, hb, Except.map]
  · intro vm1 hE
    have hb : State.loadBody orc lua52 fmt s vm file
        = Except.ok (false, vm1,
            [(LUA_ERRFILE,
              (luaToStringTop fmt vm1).getD (file ++ ": file error"))]) := by
      cases lua52 <;>
        simp [State.loadBody, hl, hh, hE, LUA_OK, LUA_ERRSYNTAX, LUA_ERRFILE]
    simp [State.load, hb, Except.map]
  · intro vm1 st2 vm2 hE hP hne
    have hb : State.loadBody orc lua52 fmt s vm file
        = Except.ok (false, vm2,
            [(st2,
              (luaToStringTop fmt vm2).getD (file ++ ": dofile failed"))]) := by
      cases lua52 <;>
        simp [State.loadBody, hl, hh, hE, hP, hne, LUA_OK]
    simp [State.load, hb, Except.map]

/-- Witness for c4_load_fallback: a concrete syntax-error compile failure
with a non-string stack top reports the path-tagged fallback message. -/
theorem c4_load_fallback_witness :
    demoState.l = some 1 ∧ demoState.handler = some 0 ∧
    demoOracle.loadfile "f.lua" demoVM
        = ( LUA_ERRSYNTAX,
           { demoVM with stack := LuaVal.table 9 :: demoVM.stack }) ∧
    State.load demoOracle true demoFmt demoState demoVM "f.lua"
      = Except.ok (false,
          restoreStack demoVM.stack.length
            { demoVM with stack := LuaVal.table 9 :: demoVM.stack },
          [( LUA_ERRSYNTAX,
            (luaToStringTop demoFmt
                { demoVM with stack := LuaVal.table 9 :: demoVM.stack }).getD
              ("f.lua" ++ ": syntax error"))]) :=
  ⟨rfl, rfl, rfl,
    (c4_load_fallback demoOracle true demoFmt demoState demoVM "f.lua" 1 0
        rfl rfl).1
      { demoVM with stack := LuaVal.table 9 :: demoVM.stack } rfl⟩

/-- C5 counterexample: the claim that the moved-to instance behaves
identically to the original on a failing Execute is false — the move
constructor leaves the new instance's handler pointer null, so the failing
Execute faults on the null handler while the original reports and returns
false. -/
theorem c5_counterexample :
    State.execute demoOracle demoFmt (State.moveCtor demoState).1 demoVM "x"
      ≠ State.execute demoOracle demoFmt demoState demoVM "x" :=
  fun h => Except.noConfusion h

/-- C5 (amended): after move construction the moved-from State's handle is
nulled, so its destructor finalizes nothing and GlobalNames on it is an
empty no-op, but Load and Execute on it pass the nulled handle to the VM and
fault rather than being safe no-ops; the moved-to State receives the handle,
ownership flag and registry, yet not the error handler — its handler pointer
is left null, so a failing Execute on it faults on the null handler instead
of reporting as the original would. -/
theorem c5_move_semantics (orc : Oracle) (lua52 : Bool) (fmt : Int → String)
    (s : SelState) (vm : VM) (code file : String) (h0 : Nat) (st : Int)
    (vm1 : VM) (hl : s.l = some h0) :
    ((State.moveCtor s).2.l = none) ∧
    ((State.destruct (State.moveCtor s).2).2 = []) ∧
    (State.globalNames fmt (State.moveCtor s).2 vm = (vm, [])) ∧
    (State.execute orc fmt (State.moveCtor s).2 vm code
        = Except.error Fault.nullHandle) ∧
    (State.load orc lua52 fmt (State.moveCtor s).2 vm file
        = Except.error Fault.nullHandle) ∧
    ((State.moveCtor s).1.l = s.l) ∧
    ((State.moveCtor s).1.l_owner = s.l_owner) ∧
    ((State.moveCtor s).1.registry = s.registry) ∧
    ((State.moveCtor s).1.handler = none) ∧
    (orc.dostring code vm = (st, vm1) → st ≠ 0 →
        State.execute orc fmt (State.moveCtor s).1 vm code
          = Except.error Fault.nullHandler) := by
  refine ⟨rfl, rfl, rfl, rfl, rfl, rfl, rfl, rfl, rfl, ?_⟩
  intro hE hne
  have hb : State.executeBody orc fmt (State.moveCtor s).1 vm code
      = Except.error Fault.nullHandler := by
    simp [State.executeBody, State.moveCtor, hl, hE, hne]
  simp [State.execute, hb, Except.map]

/-- Witness for c5_move_semantics: moving out of a concrete live State and
making Execute fail on the moved-to instance faults on the null handler. -/
theorem c5_move_semantics_witness :
    demoState.l = some 1 ∧
    (State.moveCtor demoState).1.handler = none ∧
    State.execute demoOracle demoFmt (State.moveCtor demoState).1 demoVM "x"
      = Except.error Fault.nullHandler :=
  ⟨rfl, rfl,
    (c5_move_semantics demoOracle true demoFmt demoState demoVM "x" "f" 1 2
        { demoVM with stack := LuaVal.str "err" :: demoVM.stack }
        rfl).2.2.2.2.2.2.2.2.2 rfl (by decide)⟩

/-- C6: on destruction, an owning State with a non-null handle forces a full
collection cycle and then closes the handle (in that order); a non-owning
State never closes it; a State whose handle is null emits nothing. -/
theorem c6_destruct (s : SelState) :
    (∀ h, s.l = some h → s.l_owner = true →
        (State.destruct s).2 = [LEvent.gcCollect h, LEvent.close h]) ∧
    (s.l_owner = false → (State.destruct s).2 = []) ∧
    (s.l = none → (State.destruct s).2 = []) := by
  refine ⟨?_, ?_, ?_⟩
  · intro h hl ho
    simp [State.destruct, hl, ho]
  · intro ho
    cases hl : s.l with
    | none => simp [State.destruct, hl]
    | some h => simp [State.destruct, hl, ho]
  · intro hl
    simp [State.destruct, hl]

/-- Witness for c6_destruct: destroying a concrete owning State emits the
collection and the close of its handle, in that order. -/
theorem c6_destruct_witness :
    (⟨some 5, true, some 0, some 0⟩ : SelState).l = some 5 ∧
    (⟨some 5, true, some 0, some 0⟩ : SelState).l_owner = true ∧
    (State.destruct ⟨some 5, true, some 0, some 0⟩).2
        = [LEvent.gcCollect 5, LEvent.close 5] :=
  ⟨rfl, rfl, (c6_destruct ⟨some 5, true, some 0, some 0⟩).1 5 rfl rfl⟩

/-- C7 (code defect): move-assigning an owning State holding live handle 2
over an owning State holding live handle 1, then destroying both, emits the
collection and close of handle 2 only — handle 1 is overwritten without
lua_close and is finalized zero times, contradicting the exactly-once
finalization property. -/
theorem c7_move_assign_leak :
    (State.destruct
        (State.moveAssign false ⟨some 1, true, some 0, some 0⟩
          ⟨some 2, true, some 1, some 1⟩).1).2 ++
      (State.destruct
        (State.moveAssign false ⟨some 1, true, some 0, some 0⟩
          ⟨some 2, true, some 1, some 1⟩).2).2
      = [LEvent.gcCollect 2, LEvent.close 2] := by
  rfl

/-- C8: GlobalNames returns the empty sequence when no VM handle is bound;
otherwise it walks the global table collecting string keys textually and
number keys through the numeric formatter, skipping every other key tag,
and it leaves the VM — stack and globals — exactly as it found it. -/
theorem c8_global_names (fmt : Int → String) (s : SelState) (vm : VM) :
    State.globalNames fmt s vm
      = (vm, if s.l.isSome then specGlobalNames fmt vm.globals else []) :=
  globalNames_run fmt s vm

/-- C9: with a live handle and an installed reporter, Load, Execute and
OpenLib always return normally on both VM-ABI generations — recoverable VM
failure is communicated through the boolean result and the reporter
invocations, never as a fault crossing the public boundary. -/
theorem c9_no_fault (orc : Oracle) (lua52 : Bool) (fmt : Int → String)
    (s : SelState) (vm : VM) (file code modname : String) (openf : Nat)
    (h0 hd : Nat) (hl : s.l = some h0) (hh : s.handler = some hd) :
    (∃ r, State.load orc lua52 fmt s vm file = Except.ok r) ∧
    (∃ r, State.execute orc fmt s vm code = Except.ok r) ∧
    (∃ r, State.openLib orc lua52 s vm modname openf = Except.ok r) := by
  refine ⟨?_, ?_, ?_⟩
  · have hL : ∃ b, State.loadBody orc lua52 fmt s vm file = Except.ok b := by
      simp only [State.loadBody, hl, hh]
      repeat' split
      all_goals exact ⟨_, rfl⟩
    obtain ⟨b, hb⟩ := hL
    exact ⟨(b.1, restoreStack vm.stack.length b.2.1, b.2.2),
      by simp [State.load, hb, Except.map]⟩
  · have hL : ∃ b, State.executeBody orc fmt s vm code = Except.ok b := by
      simp only [State.executeBody, hl, hh]
      repeat' split
      all_goals exact ⟨_, rfl⟩
    obtain ⟨b, hb⟩ := hL
    exact ⟨(b.1, restoreStack vm.stack.length b.2.1, b.2.2),
      by simp [State.execute, hb, Except.map]⟩
  · have hL : ∃ b, State.openLibBody orc lua52 s vm modname openf
        = Except.ok b := by
      simp only [State.openLibBody, hl]
      repeat' split
      all_goals exact ⟨_, rfl⟩
    obtain ⟨b, hb⟩ := hL
    exact ⟨restoreStack vm.stack.length b,
      by simp [State.openLib, hb, Except.map]⟩

/-- Witness for c9_no_fault on a concrete live State with failing compile
and failing run. -/
theorem c9_no_fault_witness :
    demoState.l = some 1 ∧ demoState.handler = some 0 ∧
    ((∃ r, State.load demoOracle true demoFmt demoState demoVM "f"
        = Except.ok r) ∧
     (∃ r, State.execute demoOracle demoFmt demoState demoVM "x"
        = Except.ok r) ∧
     (∃ r, State.openLib demoOracle true demoState demoVM "m" 0
        = Except.ok r)) :=
  ⟨rfl, rfl,
    c9_no_fault demoOracle true demoFmt demoState demoVM "f" "x" "m" 0 1 0
      rfl rfl⟩

/-- C10: move-assigning a State to itself (the address check of
operator=(State&&)) changes nothing — the handle, ownership flag, registry
and handler are all unchanged, so every subsequent operation behaves as
before. -/
theorem c10_self_move_assign (s : SelState) :
    State.moveAssign true s s = (s, s) ∧
    (State.moveAssign true s s).1.l = s.l ∧
    (State.moveAssign true s s).1.l_owner = s.l_owner ∧
    (State.moveAssign true s s).1.registry = s.registry ∧
    (State.moveAssign true s s).1.handler = s.handler := by
  refine ⟨rfl, rfl, rfl, rfl, rfl⟩

end Selene
